import Mathlib

/-!
# sshterm: construction, teardown and terminal negotiation of an SSH session

A shallow embedding of `sshterm.go`.  The package is a thin layer over
`golang.org/x/crypto/ssh`, `.../ssh/agent`, `.../ssh/knownhosts`,
`golang.org/x/term`, `net` and `os`.  Every call into those libraries is
embedded as

* an entry appended to `World.trace` (which call was made, with which
  arguments, in which order), and
* a result read from `Env`, which holds one oracle per library function.

The local terminal attributes of standard input are explicit state
(`World.termios`).  Go values of type `error` are `Option GoError`
(`none` is `nil`), `(T, error)` results of library calls are `Except GoError T`,
pointer fields of the handle are `Option`, and a method call on a nil pointer
is a `panicked` outcome.
-/

namespace sshterm

/-! ## Values of the libraries -/

/-- A Go `error` value.  `ext` is a value handed over by a library call,
`errorString` is the value allocated by `errors.New` in this package. -/
inductive GoError where
  | ext (id : Nat) (msg : String)
  | errorString (msg : String)
  deriving DecidableEq, Repr

/-- The method `Error()` of an error value. -/
def GoError.Error : GoError → String
  | .ext _ msg => msg
  | .errorString msg => msg

/-- The function `errors.New`. -/
def errors.New (text : String) : GoError := .errorString text

/-- The `net.Conn` to the authentication agent. -/
structure Conn where
  id : Nat
  deriving DecidableEq, Repr

/-- An `ssh.Signer` obtained from the agent. -/
structure Signer where
  id : Nat
  deriving DecidableEq, Repr

/-- The `ssh.HostKeyCallback` built by `knownhosts.New`. -/
structure HostKeyCallback where
  id : Nat
  deriving DecidableEq, Repr

/-- An `ssh.AuthMethod`; the package only builds `ssh.PublicKeys(signers...)`. -/
inductive AuthMethod where
  | PublicKeys (signers : List Signer)
  deriving DecidableEq, Repr

/-- The fields of `ssh.ClientConfig` that `NewSSHTerm` fills in. -/
structure ClientConfig where
  User : String
  Auth : List AuthMethod
  HostKeyCallback : HostKeyCallback
  deriving DecidableEq, Repr

/-- An `*ssh.Client`. -/
structure Client where
  id : Nat
  deriving DecidableEq, Repr

/-- The three standard streams of the calling process. -/
inductive File where
  | Stdin
  | Stdout
  | Stderr
  deriving DecidableEq, Repr

/-- An `*ssh.Session` with the stream fields that `NewSSHTerm` assigns. -/
structure Session where
  id : Nat
  Stdin : Option File
  Stdout : Option File
  Stderr : Option File
  deriving DecidableEq, Repr

/-- The terminal attributes of a file descriptor. -/
structure Termios where
  attrs : Nat
  deriving DecidableEq, Repr

/-- The `*term.State` returned by `term.MakeRaw`: the attributes it saved. -/
structure State where
  termios : Termios
  deriving DecidableEq, Repr

/-- `ssh.TerminalModes`, a map from opcode to value, as the association list
of its entries. -/
abbrev TerminalModes := List (Nat × Nat)

/-- Opcode `ssh.ECHO`. -/
def ECHO : Nat := 53

/-- Opcode `ssh.TTY_OP_ISPEED`. -/
def TTY_OP_ISPEED : Nat := 128

/-- Opcode `ssh.TTY_OP_OSPEED`. -/
def TTY_OP_OSPEED : Nat := 129

/-- A Go `int` (64 bit, two's complement): the representative of an integer. -/
def wrapInt (x : Int) : Int := (x + 2 ^ 63) % 2 ^ 64 - 2 ^ 63

/-- Subtraction on Go `int`. -/
def subInt (a b : Int) : Int := wrapInt (a - b)

/-- `strings.Contains` on the characters of the two strings. -/
def Contains (s substr : String) : Prop := substr.data <:+: s.data

instance (s substr : String) : Decidable (Contains s substr) := by
  unfold Contains; infer_instance

/-! ## The handle and its configuration -/

/-- The struct `sshTerm`: two pointers, `nil` in the zero value. -/
structure sshTerm where
  session : Option Session
  client : Option Client
  deriving DecidableEq, Repr

/-- The struct `Config`. -/
structure Config where
  User : String
  Host : String
  KnownHostPath : String
  deriving DecidableEq, Repr

/-! ## Calls into the libraries, and the world they act on -/

/-- One call into a library, with its arguments.  Methods of `*ssh.Session`
and `*ssh.Client` carry their receiver, which may be `nil`. -/
inductive Call where
  | Getenv (key : String)
  | netDial (network address : String)
  | agentSigners (sock : Conn)
  | knownhostsNew (path : String)
  | sshDial (network addr : String) (config : ClientConfig)
  | NewSession (c : Client)
  | sessionClose (s : Option Session)
  | clientClose (c : Option Client)
  | IsTerminal (fd : Int)
  | MakeRaw (fd : Int)
  | Restore (fd : Int) (state : State)
  | GetSize (fd : Int)
  | RequestPty (s : Option Session) (term : String) (h w : Int) (modes : TerminalModes)
  | Start (s : Option Session) (cmd : String)
  | Shell (s : Option Session)
  | Wait (s : Option Session)
  | Run (s : Option Session) (cmd : String)
  deriving DecidableEq, Repr

/-- The results of the library calls: one oracle per library function. -/
structure Env where
  /-- Value of `os.Getenv("SSH_AUTH_SOCK")`. -/
  Getenv : String → String
  /-- Result of `net.Dial(network, address)`. -/
  netDial : String → String → Except GoError Conn
  /-- Result of `agent.NewClient(sock).Signers()`. -/
  agentSigners : Conn → Except GoError (List Signer)
  /-- Result of `knownhosts.New(path)`. -/
  knownhostsNew : String → Except GoError HostKeyCallback
  /-- Result of `ssh.Dial(network, addr, config)`. -/
  sshDial : String → String → ClientConfig → Except GoError Client
  /-- Result of `client.NewSession()`. -/
  NewSession : Client → Except GoError Session
  /-- Result of `session.Close()`. -/
  sessionClose : Session → Option GoError
  /-- Result of `client.Close()`. -/
  clientClose : Client → Option GoError
  /-- Value of `int(os.Stdin.Fd())`. -/
  stdinFd : Int
  /-- Result of `term.IsTerminal(fd)`. -/
  IsTerminal : Int → Bool
  /-- Result of `term.MakeRaw(fd)` on a terminal whose attributes are the
  second argument: an error, which leaves the attributes as they are, or the
  raw attributes it installs; the state it returns is the attributes it found. -/
  MakeRaw : Int → Termios → Except GoError Termios
  /-- Result of `term.GetSize(fd)`: width and height. -/
  GetSize : Int → Except GoError (Int × Int)
  /-- Result of `session.RequestPty(term, h, w, modes)`. -/
  RequestPty : Session → String → Int → Int → TerminalModes → Option GoError
  /-- Result of `session.Start(cmd)`. -/
  Start : Session → String → Option GoError
  /-- Result of `session.Shell()`. -/
  Shell : Session → Option GoError
  /-- Result of `session.Wait()`. -/
  Wait : Session → Option GoError
  /-- Result of `session.Run(cmd)`. -/
  Run : Session → String → Option GoError

/-- The state the package acts on: the attributes of the local terminal and
the calls made so far, oldest first. -/
structure World where
  termios : Termios
  trace : List Call
  deriving DecidableEq, Repr

/-- Record a call. -/
def World.call (w : World) (c : Call) : World := ⟨w.termios, w.trace ++ [c]⟩

/-- How a Go function ends: it returns a value, or it panics. -/
inductive Outcome (α : Type) where
  | returned (v : α)
  | panicked (msg : String)
  deriving DecidableEq, Repr

/-- The runtime error of a method that reads a field of a nil receiver. -/
def nilDereference : String :=
  "runtime error: invalid memory address or nil pointer dereference"

/-- A method of a pointer receiver that reads a field of the receiver:
it panics on `nil`. -/
def onPointer {ρ α : Type} (p : Option ρ) (f : ρ → α) : Outcome α :=
  match p with
  | none => .panicked nilDereference
  | some x => .returned (f x)

/-! ## `NewSSHTerm` -/

/-- The function `NewSSHTerm`. -/
def NewSSHTerm (env : Env) (config : Config) (w : World) :
    (sshTerm × Option GoError) × World :=
  let st : sshTerm := ⟨none, none⟩
  let w := w.call (.Getenv "SSH_AUTH_SOCK")
  let w := w.call (.netDial "unix" (env.Getenv "SSH_AUTH_SOCK"))
  match env.netDial "unix" (env.Getenv "SSH_AUTH_SOCK") with
  | .error err =>
    ((st, some (errors.New ("cannot connect to SSH sock: \n" ++ err.Error))), w)
  | .ok sock =>
    let w := w.call (.agentSigners sock)
    match env.agentSigners sock with
    | .error err =>
      ((st, some (errors.New ("cannot create signers: \n" ++ err.Error))), w)
    | .ok signers =>
      let w := w.call (.knownhostsNew config.KnownHostPath)
      match env.knownhostsNew config.KnownHostPath with
      | .error err =>
        ((st, some (errors.New ("unable to parse known_hosts: \n" ++ err.Error))), w)
      | .ok hostKey =>
        let clientConfig : ClientConfig :=
          ⟨config.User, [AuthMethod.PublicKeys signers], hostKey⟩
        let w := w.call (.sshDial "tcp" (config.Host ++ ":22") clientConfig)
        match env.sshDial "tcp" (config.Host ++ ":22") clientConfig with
        | .error err =>
          ((st, some (errors.New ("unable to connect: \n" ++ err.Error))), w)
        | .ok client =>
          let st : sshTerm := ⟨st.session, some client⟩
          let w := w.call (.NewSession client)
          match env.NewSession client with
          | .error err =>
            ((st, some (errors.New ("unable to create session: \n" ++ err.Error))), w)
          | .ok session =>
            let session : Session :=
              ⟨session.id, some File.Stdin, some File.Stdout, some File.Stderr⟩
            let st : sshTerm := ⟨some session, st.client⟩
            ((st, none), w)

/-! ## `Close` -/

/-- The method `Close`: no result; the two errors are dropped. -/
def sshTerm.Close (env : Env) (s : sshTerm) (w : World) : Outcome Unit × World :=
  let w := w.call (.sessionClose s.session)
  match onPointer s.session env.sessionClose with
  | .panicked msg => (.panicked msg, w)
  | .returned _ =>
    let w := w.call (.clientClose s.client)
    match onPointer s.client env.clientClose with
    | .panicked msg => (.panicked msg, w)
    | .returned _ => (.returned (), w)

/-! ## `Terminal` -/

/-- Run `body`, then the deferred call `deferred`, whether `body` returned or
panicked: Go `defer`. -/
def withDefer {α : Type} (deferred : World → World)
    (body : World → Outcome α × World) (w : World) : Outcome α × World :=
  let r := body w
  (r.1, deferred r.2)

/-- The function `term.Restore`, by its contract: it writes the saved attributes
back.  Its error result has no reader: line 90 defers the call. -/
def Restore (fd : Int) (state : State) (w : World) : World :=
  ⟨state.termios, (w.call (.Restore fd state)).trace⟩

/-- Lines 109 to 121 of `Terminal`: start the command or the shell, wait. -/
def sshTerm.Terminal.start (env : Env) (s : sshTerm) (cmd : List String) (w : World) :
    Outcome (Option GoError) × World :=
  let r : Outcome (Option GoError) × World :=
    match cmd with
    | c :: _ => (onPointer s.session (fun x => env.Start x c), w.call (.Start s.session c))
    | [] => (onPointer s.session env.Shell, w.call (.Shell s.session))
  match r.1 with
  | .panicked msg => (.panicked msg, r.2)
  | .returned (some err) => (.returned (some err), r.2)
  | .returned none =>
    let w := r.2.call (.Wait s.session)
    match onPointer s.session env.Wait with
    | .panicked msg => (.panicked msg, w)
    | .returned _ => (.returned none, w)

/-- The map literal `modes` of `Terminal`. -/
def sshTerm.Terminal.modes : TerminalModes :=
  [(ECHO, 1), (TTY_OP_ISPEED, 14400), (TTY_OP_OSPEED, 14400)]

/-- Lines 92 to 121 of `Terminal`: what runs under the deferred `Restore`. -/
def sshTerm.Terminal.negotiate (env : Env) (s : sshTerm) (cmd : List String)
    (fileDescriptor : Int) (w : World) : Outcome (Option GoError) × World :=
  let w := w.call (.GetSize fileDescriptor)
  match env.GetSize fileDescriptor with
  | .error err => (.returned (some err), w)
  | .ok (termWidth, termHeight) =>
    let termHeight := subInt termHeight 1
    let w := w.call
      (.RequestPty s.session "xterm-256color" termHeight termWidth sshTerm.Terminal.modes)
    match onPointer s.session
        (fun x => env.RequestPty x "xterm-256color" termHeight termWidth
          sshTerm.Terminal.modes) with
    | .panicked msg => (.panicked msg, w)
    | .returned (some err) => (.returned (some err), w)
    | .returned none => sshTerm.Terminal.start env s cmd w

/-- The method `Terminal`. -/
def sshTerm.Terminal (env : Env) (s : sshTerm) (cmd : List String) (w : World) :
    Outcome (Option GoError) × World :=
  let fileDescriptor := env.stdinFd
  let w := w.call (.IsTerminal fileDescriptor)
  if env.IsTerminal fileDescriptor then
    let w := w.call (.MakeRaw fileDescriptor)
    match env.MakeRaw fileDescriptor w.termios with
    | .error err => (.returned (some err), w)
    | .ok raw =>
      let originalState : State := ⟨w.termios⟩
      let w : World := ⟨raw, w.trace⟩
      withDefer (Restore fileDescriptor originalState)
        (sshTerm.Terminal.negotiate env s cmd fileDescriptor) w
  else
    sshTerm.Terminal.start env s cmd w

/-! ## `Exec` -/

/-- The method `Exec`. -/
def sshTerm.Exec (env : Env) (s : sshTerm) (cmd : String) (w : World) :
    Outcome (Option GoError) × World :=
  let w := w.call (.Run s.session cmd)
  (onPointer s.session (fun x => env.Run x cmd), w)

/-! ## The order of the construction steps -/

/-- The five external steps of `NewSSHTerm`. -/
inductive Step where
  | agentConnect
  | signers
  | knownHosts
  | dial
  | session
  deriving DecidableEq, Repr

/-- The construction step a library call belongs to, if any. -/
def Call.step : Call → Option Step
  | .netDial _ _ => some .agentConnect
  | .agentSigners _ => some .signers
  | .knownhostsNew _ => some .knownHosts
  | .sshDial _ _ _ => some .dial
  | .NewSession _ => some .session
  | _ => none

/-- The construction steps among a list of calls, in the order they were made. -/
def stepsOf (calls : List Call) : List Step := calls.filterMap Call.step

/-- The order in which `NewSSHTerm` is written to run its steps. -/
def NewSSHTerm.order : List Step :=
  [.agentConnect, .signers, .knownHosts, .dial, .session]

/-- Position of a step in `NewSSHTerm.order`. -/
def Step.index : Step → Nat
  | .agentConnect => 0
  | .signers => 1
  | .knownHosts => 2
  | .dial => 3
  | .session => 4

/-- The fixed text that `NewSSHTerm` puts in front of the cause when a step
fails (the string literals of lines 29, 35, 40, 51 and 58). -/
def Step.text : Step → String
  | .agentConnect => "cannot connect to SSH sock: \n"
  | .signers => "cannot create signers: \n"
  | .knownHosts => "unable to parse known_hosts: \n"
  | .dial => "unable to connect: \n"
  | .session => "unable to create session: \n"

/-- The outcome of the external steps of a construction, read off the
environment alone: the first step, in the order of `NewSSHTerm.order`, whose
library call answers with an error, and that error; `none` when all five
succeed. -/
def firstFailure (env : Env) (config : Config) : Option (Step × GoError) :=
  match env.netDial "unix" (env.Getenv "SSH_AUTH_SOCK") with
  | .error e => some (.agentConnect, e)
  | .ok sock =>
    match env.agentSigners sock with
    | .error e => some (.signers, e)
    | .ok signers =>
      match env.knownhostsNew config.KnownHostPath with
      | .error e => some (.knownHosts, e)
      | .ok hostKey =>
        match env.sshDial "tcp" (config.Host ++ ":22")
            ⟨config.User, [AuthMethod.PublicKeys signers], hostKey⟩ with
        | .error e => some (.dial, e)
        | .ok client =>
          match env.NewSession client with
          | .error e => some (.session, e)
          | .ok _ => none

/-! ## The stages of `Terminal` -/

/-- The library calls of `Terminal` that can end it, and the final wait. -/
inductive Stage where
  | makeRaw
  | getSize
  | requestPty
  | start
  | wait
  deriving DecidableEq, Repr

/-- Position of a stage in the execution order of `Terminal`. -/
def Stage.index : Stage → Nat
  | .makeRaw => 0
  | .getSize => 1
  | .requestPty => 2
  | .start => 3
  | .wait => 4

/-- The stage a library call belongs to, if any (`Start` and `Shell` are the
two forms of the start stage). -/
def Call.stage : Call → Option Stage
  | .MakeRaw _ => some .makeRaw
  | .GetSize _ => some .getSize
  | .RequestPty _ _ _ _ _ => some .requestPty
  | .Start _ _ => some .start
  | .Shell _ => some .start
  | .Wait _ => some .wait
  | _ => none

/-- The call asks for a pseudo-terminal. -/
def Call.isRequestPty : Call → Bool
  | .RequestPty _ _ _ _ _ => true
  | _ => false

/-- The call starts a command or a shell on the session. -/
def Call.isStart : Call → Bool
  | .Start _ _ => true
  | .Shell _ => true
  | _ => false

/-- The call waits for the remote side. -/
def Call.isWait : Call → Bool
  | .Wait _ => true
  | _ => false

/-- The call restores the attributes of the local terminal. -/
def Call.isRestore : Call → Bool
  | .Restore _ _ => true
  | _ => false

/-- The call reads or writes the local terminal: raw mode, size, restore. -/
def Call.touchesTerminal : Call → Bool
  | .MakeRaw _ => true
  | .GetSize _ => true
  | .Restore _ _ => true
  | _ => false

/-- The start call that `Terminal` makes for an argument list (lines 109 to
113): `Start` with the first argument when there is one, `Shell` otherwise. -/
def sshTerm.Terminal.startCall (s : Option Session) : List String → Call
  | c :: _ => .Start s c
  | [] => .Shell s

/-- What the environment answers to that call on the session `sess`. -/
def sshTerm.Terminal.startResult (env : Env) (sess : Session) : List String → Option GoError
  | c :: _ => env.Start sess c
  | [] => env.Shell sess

/-- The outcome of the stages of an interactive run on the session `sess`,
read off the environment alone: the first stage, in execution order, whose
library call answers with an error, and that error; `none` when none does.
The stages before `start` only exist when standard input is a terminal, and the
result of the wait does not count. -/
def sshTerm.Terminal.firstFailure (env : Env) (sess : Session) (cmd : List String)
    (t : Termios) : Option (Stage × GoError) :=
  let start : Option (Stage × GoError) :=
    (sshTerm.Terminal.startResult env sess cmd).map (fun e => (Stage.start, e))
  if env.IsTerminal env.stdinFd then
    match env.MakeRaw env.stdinFd t with
    | .error e => some (.makeRaw, e)
    | .ok _ =>
      match env.GetSize env.stdinFd with
      | .error e => some (.getSize, e)
      | .ok (termWidth, termHeight) =>
        match env.RequestPty sess "xterm-256color" (subInt termHeight 1) termWidth
            sshTerm.Terminal.modes with
        | some e => some (.requestPty, e)
        | none => start
  else start

/-! ## Concrete environments -/

/-- An environment in which every library call succeeds; standard input is a
terminal of 80 columns and 24 rows. -/
def sampleEnv : Env where
  Getenv := fun _ => "/tmp/agent.sock"
  netDial := fun _ _ => .ok ⟨1⟩
  agentSigners := fun _ => .ok [⟨1⟩]
  knownhostsNew := fun _ => .ok ⟨1⟩
  sshDial := fun _ _ _ => .ok ⟨1⟩
  NewSession := fun _ => .ok ⟨1, none, none, none⟩
  sessionClose := fun _ => none
  clientClose := fun _ => none
  stdinFd := 0
  IsTerminal := fun _ => true
  MakeRaw := fun _ t => .ok ⟨t.attrs + 1⟩
  GetSize := fun _ => .ok (80, 24)
  RequestPty := fun _ _ _ _ _ => none
  Start := fun _ _ => none
  Shell := fun _ => none
  Wait := fun _ => none
  Run := fun _ _ => none

/-- A configuration. -/
def sampleConfig : Config := ⟨"root", "example.org", "/root/.ssh/known_hosts"⟩

/-- A world: cooked terminal, nothing called yet. -/
def sampleWorld : World := ⟨⟨0⟩, []⟩

/-- The session that `NewSSHTerm` builds in `sampleEnv`. -/
def sampleSession : Session := ⟨1, some File.Stdin, some File.Stdout, some File.Stderr⟩

/-- The handle that `NewSSHTerm` builds in `sampleEnv`. -/
def sampleHandle : sshTerm := ⟨some sampleSession, some ⟨1⟩⟩

/-- The agent socket cannot be reached. -/
def noAgentEnv : Env :=
  { sampleEnv with netDial := fun _ _ => .error (.ext 1 "connect: no such file or directory") }

/-- The agent does not list its keys. -/
def noSignersEnv : Env :=
  { sampleEnv with agentSigners := fun _ => .error (.ext 2 "agent: failure") }

/-- The known-hosts file does not parse. -/
def badKnownHostsEnv : Env :=
  { sampleEnv with knownhostsNew := fun _ => .error (.ext 3 "illegal base64 data") }

/-- The host cannot be dialled. -/
def noDialEnv : Env :=
  { sampleEnv with sshDial := fun _ _ _ => .error (.ext 4 "connection refused") }

/-- The transport is up and the server rejects the session channel. -/
def noSessionEnv : Env :=
  { sampleEnv with NewSession := fun _ => .error (.ext 5 "open failed") }

/-- Standard input is redirected from a file. -/
def pipedEnv : Env :=
  { sampleEnv with IsTerminal := fun _ => false }

/-- The size of the terminal cannot be read. -/
def noSizeEnv : Env :=
  { sampleEnv with GetSize := fun _ => .error (.ext 6 "inappropriate ioctl for device") }

/-- The server refuses the pseudo-terminal. -/
def noPtyEnv : Env :=
  { sampleEnv with RequestPty := fun _ _ _ _ _ => some (.ext 7 "ssh: pty-req failed") }

/-- The server refuses the shell and the command. -/
def noStartEnv : Env :=
  { sampleEnv with
    Start := fun _ _ => some (.ext 8 "ssh: command failed")
    Shell := fun _ => some (.ext 8 "ssh: could not start shell") }

/-- The remote shell and command end with a non-zero status. -/
def exitOneEnv : Env :=
  { sampleEnv with
    Wait := fun _ => some (.ext 9 "Process exited with status 1")
    Run := fun _ _ => some (.ext 9 "Process exited with status 1")
    sessionClose := fun _ => some (.ext 10 "EOF")
    clientClose := fun _ => some (.ext 11 "use of closed network connection") }

/-! ## `NewSSHTerm`, one lemma per way it ends -/

/-- The agent socket cannot be dialled: empty handle, wrapped error, and the
only calls are the environment lookup and the dial of the socket. -/
theorem NewSSHTerm_agentConnect_error (env : Env) (config : Config) (w : World)
    (err : GoError)
    (h : env.netDial "unix" (env.Getenv "SSH_AUTH_SOCK") = .error err) :
    NewSSHTerm env config w =
      ((⟨none, none⟩, some (errors.New ("cannot connect to SSH sock: \n" ++ err.Error))),
       ⟨w.termios, w.trace ++ [.Getenv "SSH_AUTH_SOCK",
          .netDial "unix" (env.Getenv "SSH_AUTH_SOCK")]⟩) := by
  simp [NewSSHTerm, h, World.call]

/-- The agent does not return signers. -/
theorem NewSSHTerm_signers_error (env : Env) (config : Config) (w : World)
    (sock : Conn) (err : GoError)
    (h₁ : env.netDial "unix" (env.Getenv "SSH_AUTH_SOCK") = .ok sock)
    (h₂ : env.agentSigners sock = .error err) :
    NewSSHTerm env config w =
      ((⟨none, none⟩, some (errors.New ("cannot create signers: \n" ++ err.Error))),
       ⟨w.termios, w.trace ++ [.Getenv "SSH_AUTH_SOCK",
          .netDial "unix" (env.Getenv "SSH_AUTH_SOCK"), .agentSigners sock]⟩) := by
  simp [NewSSHTerm, h₁, h₂, World.call]

/-- The known-hosts file does not load. -/
theorem NewSSHTerm_knownHosts_error (env : Env) (config : Config) (w : World)
    (sock : Conn) (signers : List Signer) (err : GoError)
    (h₁ : env.netDial "unix" (env.Getenv "SSH_AUTH_SOCK") = .ok sock)
    (h₂ : env.agentSigners sock = .ok signers)
    (h₃ : env.knownhostsNew config.KnownHostPath = .error err) :
    NewSSHTerm env config w =
      ((⟨none, none⟩, some (errors.New ("unable to parse known_hosts: \n" ++ err.Error))),
       ⟨w.termios, w.trace ++ [.Getenv "SSH_AUTH_SOCK",
          .netDial "unix" (env.Getenv "SSH_AUTH_SOCK"), .agentSigners sock,
          .knownhostsNew config.KnownHostPath]⟩) := by
  simp [NewSSHTerm, h₁, h₂, h₃, World.call]

/-- The host cannot be dialled. -/
theorem NewSSHTerm_dial_error (env : Env) (config : Config) (w : World)
    (sock : Conn) (signers : List Signer) (hostKey : HostKeyCallback) (err : GoError)
    (h₁ : env.netDial "unix" (env.Getenv "SSH_AUTH_SOCK") = .ok sock)
    (h₂ : env.agentSigners sock = .ok signers)
    (h₃ : env.knownhostsNew config.KnownHostPath = .ok hostKey)
    (h₄ : env.sshDial "tcp" (config.Host ++ ":22")
            ⟨config.User, [AuthMethod.PublicKeys signers], hostKey⟩ = .error err) :
    NewSSHTerm env config w =
      ((⟨none, none⟩, some (errors.New ("unable to connect: \n" ++ err.Error))),
       ⟨w.termios, w.trace ++ [.Getenv "SSH_AUTH_SOCK",
          .netDial "unix" (env.Getenv "SSH_AUTH_SOCK"), .agentSigners sock,
          .knownhostsNew config.KnownHostPath,
          .sshDial "tcp" (config.Host ++ ":22")
            ⟨config.User, [AuthMethod.PublicKeys signers], hostKey⟩]⟩) := by
  simp [NewSSHTerm, h₁, h₂, h₃, h₄, World.call]

/-- The transport is up and the session does not open: the handle that comes
back holds the client. -/
theorem NewSSHTerm_session_error (env : Env) (config : Config) (w : World)
    (sock : Conn) (signers : List Signer) (hostKey : HostKeyCallback) (client : Client)
    (err : GoError)
    (h₁ : env.netDial "unix" (env.Getenv "SSH_AUTH_SOCK") = .ok sock)
    (h₂ : env.agentSigners sock = .ok signers)
    (h₃ : env.knownhostsNew config.KnownHostPath = .ok hostKey)
    (h₄ : env.sshDial "tcp" (config.Host ++ ":22")
            ⟨config.User, [AuthMethod.PublicKeys signers], hostKey⟩ = .ok client)
    (h₅ : env.NewSession client = .error err) :
    NewSSHTerm env config w =
      ((⟨none, some client⟩,
        some (errors.New ("unable to create session: \n" ++ err.Error))),
       ⟨w.termios, w.trace ++ [.Getenv "SSH_AUTH_SOCK",
          .netDial "unix" (env.Getenv "SSH_AUTH_SOCK"), .agentSigners sock,
          .knownhostsNew config.KnownHostPath,
          .sshDial "tcp" (config.Host ++ ":22")
            ⟨config.User, [AuthMethod.PublicKeys signers], hostKey⟩,
          .NewSession client]⟩) := by
  simp [NewSSHTerm, h₁, h₂, h₃, h₄, h₅, World.call]

/-- Every step succeeds: the handle holds the client and the session, whose
streams are bound to the streams of the process. -/
theorem NewSSHTerm_ok (env : Env) (config : Config) (w : World)
    (sock : Conn) (signers : List Signer) (hostKey : HostKeyCallback) (client : Client)
    (session : Session)
    (h₁ : env.netDial "unix" (env.Getenv "SSH_AUTH_SOCK") = .ok sock)
    (h₂ : env.agentSigners sock = .ok signers)
    (h₃ : env.knownhostsNew config.KnownHostPath = .ok hostKey)
    (h₄ : env.sshDial "tcp" (config.Host ++ ":22")
            ⟨config.User, [AuthMethod.PublicKeys signers], hostKey⟩ = .ok client)
    (h₅ : env.NewSession client = .ok session) :
    NewSSHTerm env config w =
      ((⟨some ⟨session.id, some File.Stdin, some File.Stdout, some File.Stderr⟩,
         some client⟩, none),
       ⟨w.termios, w.trace ++ [.Getenv "SSH_AUTH_SOCK",
          .netDial "unix" (env.Getenv "SSH_AUTH_SOCK"), .agentSigners sock,
          .knownhostsNew config.KnownHostPath,
          .sshDial "tcp" (config.Host ++ ":22")
            ⟨config.User, [AuthMethod.PublicKeys signers], hostKey⟩,
          .NewSession client]⟩) := by
  simp [NewSSHTerm, h₁, h₂, h₃, h₄, h₅, World.call]

/-- A string that opens with a text containing `needle` contains `needle`. -/
theorem Contains_append_left (head tail needle : String)
    (h : Contains head needle) : Contains (head ++ tail) needle := by
  unfold Contains at *
  obtain ⟨a, b, hab⟩ := h
  refine ⟨a, b ++ tail.data, ?_⟩
  simp [String.data_append, ← hab, List.append_assoc]

/-- The second operand of a concatenation ends it. -/
theorem data_suffix_append (head tail : String) : tail.data <:+ (head ++ tail).data :=
  ⟨head.data, by simp [String.data_append]⟩

/-- A construction whose first failing step is `step`, with cause `e`: the
error is new, its message is the text of the step followed by the message of
the cause, the steps made are those of the fixed order up to `step` and no
further, no session is in the handle, and a client is in it exactly when the
failing step is the session. -/
theorem NewSSHTerm_failure (env : Env) (config : Config) (w : World)
    (step : Step) (e : GoError) (h : firstFailure env config = some (step, e)) :
    ∃ (calls : List Call) (client : Option Client),
      NewSSHTerm env config w =
        ((⟨none, client⟩, some (errors.New (step.text ++ e.Error))),
         ⟨w.termios, w.trace ++ calls⟩) ∧
      stepsOf calls = NewSSHTerm.order.take (step.index + 1) ∧
      (client.isSome = true ↔ step = .session) := by
  unfold firstFailure at h
  cases h₁ : env.netDial "unix" (env.Getenv "SSH_AUTH_SOCK") with
  | error e₁ =>
    simp only [h₁, Option.some.injEq, Prod.mk.injEq] at h
    obtain ⟨rfl, rfl⟩ := h
    exact ⟨_, none, NewSSHTerm_agentConnect_error env config w _ h₁, rfl, by simp⟩
  | ok sock =>
    cases h₂ : env.agentSigners sock with
    | error e₂ =>
      simp only [h₁, h₂, Option.some.injEq, Prod.mk.injEq] at h
      obtain ⟨rfl, rfl⟩ := h
      exact ⟨_, none, NewSSHTerm_signers_error env config w _ _ h₁ h₂, rfl, by simp⟩
    | ok signers =>
      cases h₃ : env.knownhostsNew config.KnownHostPath with
      | error e₃ =>
        simp only [h₁, h₂, h₃, Option.some.injEq, Prod.mk.injEq] at h
        obtain ⟨rfl, rfl⟩ := h
        exact ⟨_, none, NewSSHTerm_knownHosts_error env config w _ _ _ h₁ h₂ h₃, rfl,
          by simp⟩
      | ok hostKey =>
        cases h₄ : env.sshDial "tcp" (config.Host ++ ":22")
            ⟨config.User, [AuthMethod.PublicKeys signers], hostKey⟩ with
        | error e₄ =>
          simp only [h₁, h₂, h₃, h₄, Option.some.injEq, Prod.mk.injEq] at h
          obtain ⟨rfl, rfl⟩ := h
          exact ⟨_, none, NewSSHTerm_dial_error env config w _ _ _ _ h₁ h₂ h₃ h₄, rfl,
            by simp⟩
        | ok client =>
          cases h₅ : env.NewSession client with
          | error e₅ =>
            simp only [h₁, h₂, h₃, h₄, h₅, Option.some.injEq, Prod.mk.injEq] at h
            obtain ⟨rfl, rfl⟩ := h
            exact ⟨_, some client,
              NewSSHTerm_session_error env config w _ _ _ _ _ h₁ h₂ h₃ h₄ h₅, rfl, by simp⟩
          | ok session =>
            simp [h₁, h₂, h₃, h₄, h₅] at h

/-- A construction in which no step fails: nil error, a handle with a client
and a session, and all five steps made in the fixed order. -/
theorem NewSSHTerm_success (env : Env) (config : Config) (w : World)
    (h : firstFailure env config = none) :
    ∃ (calls : List Call) (client : Client) (session : Session),
      NewSSHTerm env config w =
        ((⟨some session, some client⟩, none), ⟨w.termios, w.trace ++ calls⟩) ∧
      stepsOf calls = NewSSHTerm.order := by
  unfold firstFailure at h
  cases h₁ : env.netDial "unix" (env.Getenv "SSH_AUTH_SOCK") with
  | error e₁ => simp [h₁] at h
  | ok sock =>
    cases h₂ : env.agentSigners sock with
    | error e₂ => simp [h₁, h₂] at h
    | ok signers =>
      cases h₃ : env.knownhostsNew config.KnownHostPath with
      | error e₃ => simp [h₁, h₂, h₃] at h
      | ok hostKey =>
        cases h₄ : env.sshDial "tcp" (config.Host ++ ":22")
            ⟨config.User, [AuthMethod.PublicKeys signers], hostKey⟩ with
        | error e₄ => simp [h₁, h₂, h₃, h₄] at h
        | ok client =>
          cases h₅ : env.NewSession client with
          | error e₅ => simp [h₁, h₂, h₃, h₄, h₅] at h
          | ok session =>
            exact ⟨_, client, _, NewSSHTerm_ok env config w _ _ _ _ _ h₁ h₂ h₃ h₄ h₅, rfl⟩

/-- A construction returns a nil error exactly when no step fails. -/
theorem NewSSHTerm_nil_iff (env : Env) (config : Config) (w : World) :
    (NewSSHTerm env config w).1.2 = none ↔ firstFailure env config = none := by
  constructor
  · intro h
    cases hf : firstFailure env config with
    | none => rfl
    | some p =>
      obtain ⟨step, e⟩ := p
      obtain ⟨calls, client, hr, -, -⟩ := NewSSHTerm_failure env config w step e hf
      rw [hr] at h
      simp at h
  · intro h
    obtain ⟨calls, client, session, hr, -⟩ := NewSSHTerm_success env config w h
    rw [hr]

/-- The steps of the fixed order up to a step all have an index no larger
than the index of that step. -/
theorem index_le_of_mem_take (step later : Step)
    (h : later ∈ NewSSHTerm.order.take (step.index + 1)) : later.index ≤ step.index := by
  cases step <;> cases later <;> simp [NewSSHTerm.order, Step.index] at h ⊢

/-- A call that belongs to a step contributes that step to `stepsOf`. -/
theorem step_mem_stepsOf (calls : List Call) (c : Call) (st : Step)
    (hc : c ∈ calls) (hs : c.step = some st) : st ∈ stepsOf calls := by
  unfold stepsOf
  exact List.mem_filterMap.mpr ⟨c, hc, hs⟩

/-! ## Claims about `NewSSHTerm` and `Close` -/

/-- C1, the code at the failing input.  The agent, the signers, the
known-hosts file and the dial succeed and the session does not open: the error
returned is not nil, and the handle returned with it is not the empty handle,
it holds the client of the transport that was dialled.  Nothing has closed that
client, and `Close` on this handle panics on the nil session before it reaches
the client. -/
theorem NewSSHTerm_session_failure_returns_client :
    firstFailure noSessionEnv sampleConfig = some (Step.session, GoError.ext 5 "open failed") ∧
    (NewSSHTerm noSessionEnv sampleConfig sampleWorld).1 =
      (⟨none, some ⟨1⟩⟩,
       some (GoError.errorString "unable to create session: \nopen failed")) ∧
    (NewSSHTerm noSessionEnv sampleConfig sampleWorld).1.1 ≠ ⟨none, none⟩ ∧
    Call.clientClose (some ⟨1⟩) ∉
      (NewSSHTerm noSessionEnv sampleConfig sampleWorld).2.trace ∧
    sshTerm.Close noSessionEnv (NewSSHTerm noSessionEnv sampleConfig sampleWorld).1.1
        sampleWorld =
      (Outcome.panicked nilDereference, ⟨⟨0⟩, [Call.sessionClose none]⟩) := by
  decide

/-- C7.  When the first step of a construction to fail is `step` (for the
claim: the known-hosts step, the agent connection and the signers having
succeeded), `NewSSHTerm` returns a non-nil error, the steps it made are those of
the fixed order agent connect, signers, known-hosts, dial, session up to the
failing step, and no call of a later step was made.  For the known-hosts step
the message of the error contains "known_hosts", and neither the dial of the
host nor the opening of a session is among the calls. -/
theorem NewSSHTerm_stops_at_first_failure (env : Env) (config : Config) (w : World)
    (step : Step) (err : GoError) (h : firstFailure env config = some (step, err)) :
    ∃ (calls : List Call) (e : GoError),
      (NewSSHTerm env config w).1.2 = some e ∧
      (NewSSHTerm env config w).2.trace = w.trace ++ calls ∧
      stepsOf calls = NewSSHTerm.order.take (step.index + 1) ∧
      (∀ c ∈ calls, ∀ later : Step, c.step = some later → later.index ≤ step.index) ∧
      (step = Step.knownHosts →
        e.Error = "unable to parse known_hosts: \n" ++ err.Error ∧
        Contains e.Error "known_hosts" ∧
        stepsOf calls = [Step.agentConnect, Step.signers, Step.knownHosts] ∧
        ∀ c ∈ calls, c.step ≠ some Step.dial ∧ c.step ≠ some Step.session) := by
  obtain ⟨calls, client, hr, hsteps, -⟩ := NewSSHTerm_failure env config w step err h
  have hle : ∀ c ∈ calls, ∀ later : Step, c.step = some later →
      later.index ≤ step.index := by
    intro c hc later hl
    exact index_le_of_mem_take step later (hsteps ▸ step_mem_stepsOf calls c later hc hl)
  refine ⟨calls, errors.New (step.text ++ err.Error), by rw [hr], by rw [hr], hsteps,
    hle, ?_⟩
  rintro rfl
  refine ⟨rfl, ?_, by rw [hsteps]; rfl, ?_⟩
  · exact Contains_append_left _ _ _ (by decide)
  · intro c hc
    constructor
    · intro hd
      have := hle c hc _ hd
      simp [Step.index] at this
    · intro hd
      have := hle c hc _ hd
      simp [Step.index] at this

/-- Witness of C7: the known-hosts file does not parse. -/
theorem NewSSHTerm_stops_at_first_failure_witness :
    firstFailure badKnownHostsEnv sampleConfig =
      some (Step.knownHosts, GoError.ext 3 "illegal base64 data") ∧
    ∃ (calls : List Call) (e : GoError),
      (NewSSHTerm badKnownHostsEnv sampleConfig sampleWorld).1.2 = some e ∧
      (NewSSHTerm badKnownHostsEnv sampleConfig sampleWorld).2.trace =
        sampleWorld.trace ++ calls ∧
      stepsOf calls = NewSSHTerm.order.take (Step.knownHosts.index + 1) ∧
      (∀ c ∈ calls, ∀ later : Step, c.step = some later →
        later.index ≤ Step.knownHosts.index) ∧
      (Step.knownHosts = Step.knownHosts →
        e.Error = "unable to parse known_hosts: \n" ++
          (GoError.ext 3 "illegal base64 data").Error ∧
        Contains e.Error "known_hosts" ∧
        stepsOf calls = [Step.agentConnect, Step.signers, Step.knownHosts] ∧
        ∀ c ∈ calls, c.step ≠ some Step.dial ∧ c.step ≠ some Step.session) :=
  ⟨rfl, NewSSHTerm_stops_at_first_failure badKnownHostsEnv sampleConfig sampleWorld
    Step.knownHosts (GoError.ext 3 "illegal base64 data") rfl⟩

/-- C8.  When the first step to fail is the agent connection, the signer
retrieval, the known-hosts loading or the dial, with cause `err`, `NewSSHTerm`
returns the empty handle (no client, no session) and a new error whose message
is the fixed text of that step followed by the message of `err`, so that the
message of `err` ends it.  For the agent connection the message contains
"cannot connect to SSH sock". -/
theorem NewSSHTerm_wraps_setup_errors (env : Env) (config : Config) (w : World)
    (step : Step) (err : GoError) (h : firstFailure env config = some (step, err))
    (hstep : step ≠ Step.session) :
    ∃ e : GoError,
      (NewSSHTerm env config w).1 = (⟨none, none⟩, some e) ∧
      e = errors.New (step.text ++ err.Error) ∧
      e.Error = step.text ++ err.Error ∧
      err.Error.data <:+ e.Error.data ∧
      (step = Step.agentConnect →
        e.Error = "cannot connect to SSH sock: \n" ++ err.Error ∧
        Contains e.Error "cannot connect to SSH sock") ∧
      (step = Step.signers → e.Error = "cannot create signers: \n" ++ err.Error) ∧
      (step = Step.knownHosts → e.Error = "unable to parse known_hosts: \n" ++ err.Error) ∧
      (step = Step.dial → e.Error = "unable to connect: \n" ++ err.Error) := by
  obtain ⟨calls, client, hr, -, hclient⟩ := NewSSHTerm_failure env config w step err h
  have hnone : client = none := by
    cases client with
    | none => rfl
    | some c => exact absurd (hclient.mp rfl) hstep
  subst hnone
  refine ⟨errors.New (step.text ++ err.Error), by rw [hr], rfl, rfl,
    data_suffix_append _ _, ?_, ?_, ?_, ?_⟩
  · rintro rfl
    exact ⟨rfl, Contains_append_left _ _ _ (by decide)⟩
  · rintro rfl; rfl
  · rintro rfl; rfl
  · rintro rfl; rfl

/-- Witness of C8: the agent socket cannot be reached. -/
theorem NewSSHTerm_wraps_setup_errors_witness :
    firstFailure noAgentEnv sampleConfig =
      some (Step.agentConnect, GoError.ext 1 "connect: no such file or directory") ∧
    Step.agentConnect ≠ Step.session ∧
    ∃ e : GoError,
      (NewSSHTerm noAgentEnv sampleConfig sampleWorld).1 = (⟨none, none⟩, some e) ∧
      e = errors.New (Step.agentConnect.text ++
        (GoError.ext 1 "connect: no such file or directory").Error) ∧
      e.Error = Step.agentConnect.text ++
        (GoError.ext 1 "connect: no such file or directory").Error ∧
      (GoError.ext 1 "connect: no such file or directory").Error.data <:+ e.Error.data ∧
      (Step.agentConnect = Step.agentConnect →
        e.Error = "cannot connect to SSH sock: \n" ++
          (GoError.ext 1 "connect: no such file or directory").Error ∧
        Contains e.Error "cannot connect to SSH sock") ∧
      (Step.agentConnect = Step.signers → e.Error = "cannot create signers: \n" ++
        (GoError.ext 1 "connect: no such file or directory").Error) ∧
      (Step.agentConnect = Step.knownHosts → e.Error = "unable to parse known_hosts: \n" ++
        (GoError.ext 1 "connect: no such file or directory").Error) ∧
      (Step.agentConnect = Step.dial → e.Error = "unable to connect: \n" ++
        (GoError.ext 1 "connect: no such file or directory").Error) :=
  ⟨rfl, by decide, NewSSHTerm_wraps_setup_errors noAgentEnv sampleConfig sampleWorld
    Step.agentConnect (GoError.ext 1 "connect: no such file or directory") rfl (by decide)⟩

/-- C10.  A handle that `NewSSHTerm` returned with a nil error holds a session
and a client, and `Close` on it, in any later world and whatever the two close
operations answer, returns normally and without a result after exactly two
calls: the close of the session, then the close of the client, which is the
last call. -/
theorem Close_after_construction (env : Env) (config : Config) (w : World)
    (handle : sshTerm) (h : (NewSSHTerm env config w).1 = (handle, none))
    (env' : Env) (w' : World) :
    ∃ (session : Session) (client : Client),
      handle = ⟨some session, some client⟩ ∧
      sshTerm.Close env' handle w' =
        (Outcome.returned (),
         ⟨w'.termios, w'.trace ++
            [Call.sessionClose (some session), Call.clientClose (some client)]⟩) := by
  have hnil : firstFailure env config = none :=
    (NewSSHTerm_nil_iff env config w).mp (by rw [h])
  obtain ⟨calls, client, session, hr, -⟩ := NewSSHTerm_success env config w hnil
  rw [hr] at h
  simp only [Prod.mk.injEq, and_true] at h
  subst h
  exact ⟨session, client, rfl, by simp [sshTerm.Close, onPointer, World.call]⟩

/-- Witness of C10: `Close` right after a construction, on a session and a
client whose close operations both answer with an error. -/
theorem Close_after_construction_witness :
    (NewSSHTerm exitOneEnv sampleConfig sampleWorld).1 = (sampleHandle, none) ∧
    ∃ (session : Session) (client : Client),
      sampleHandle = ⟨some session, some client⟩ ∧
      sshTerm.Close exitOneEnv sampleHandle
          (NewSSHTerm exitOneEnv sampleConfig sampleWorld).2 =
        (Outcome.returned (),
         ⟨(NewSSHTerm exitOneEnv sampleConfig sampleWorld).2.termios,
          (NewSSHTerm exitOneEnv sampleConfig sampleWorld).2.trace ++
            [Call.sessionClose (some session), Call.clientClose (some client)]⟩) :=
  ⟨rfl, Close_after_construction exitOneEnv sampleConfig sampleWorld sampleHandle rfl
    exitOneEnv (NewSSHTerm exitOneEnv sampleConfig sampleWorld).2⟩

/-- C6, counterexample.  The session does not open, with cause
`ext 5 "open failed"`: the error that `NewSSHTerm` returns is not that value,
and its message is not the message of the cause, it carries the text
"unable to create session: " in front. -/
theorem NewSSHTerm_session_error_not_returned_as_is :
    noSessionEnv.NewSession ⟨1⟩ = Except.error (GoError.ext 5 "open failed") ∧
    (NewSSHTerm noSessionEnv sampleConfig sampleWorld).1.2 ≠
      some (GoError.ext 5 "open failed") ∧
    (NewSSHTerm noSessionEnv sampleConfig sampleWorld).1.2.map GoError.Error =
      some "unable to create session: \nopen failed" ∧
    (NewSSHTerm noSessionEnv sampleConfig sampleWorld).1.2.map GoError.Error ≠
      some "open failed" :=
  ⟨rfl, by decide, by decide, by decide⟩

/-! ## `Terminal`, one lemma per way it ends -/

/-- The start on a nil session panics in the start call. -/
theorem start_nil (env : Env) (cl : Option Client) (cmd : List String) (w : World) :
    sshTerm.Terminal.start env ⟨none, cl⟩ cmd w =
      (Outcome.panicked nilDereference,
       ⟨w.termios, w.trace ++ [sshTerm.Terminal.startCall none cmd]⟩) := by
  cases cmd <;>
    simp [sshTerm.Terminal.start, sshTerm.Terminal.startCall, onPointer, World.call]

/-- The start call answers with an error: it is returned, and there is no wait. -/
theorem start_error (env : Env) (sess : Session) (cl : Option Client) (cmd : List String)
    (w : World) (e : GoError) (h : sshTerm.Terminal.startResult env sess cmd = some e) :
    sshTerm.Terminal.start env ⟨some sess, cl⟩ cmd w =
      (Outcome.returned (some e),
       ⟨w.termios, w.trace ++ [sshTerm.Terminal.startCall (some sess) cmd]⟩) := by
  cases cmd <;>
    simp_all [sshTerm.Terminal.start, sshTerm.Terminal.startCall,
      sshTerm.Terminal.startResult, onPointer, World.call]

/-- The start call succeeds: one wait follows and nil is returned, whatever the
wait answers. -/
theorem start_ok (env : Env) (sess : Session) (cl : Option Client) (cmd : List String)
    (w : World) (h : sshTerm.Terminal.startResult env sess cmd = none) :
    sshTerm.Terminal.start env ⟨some sess, cl⟩ cmd w =
      (Outcome.returned none,
       ⟨w.termios, w.trace ++
          [sshTerm.Terminal.startCall (some sess) cmd, Call.Wait (some sess)]⟩) := by
  cases cmd <;>
    simp_all [sshTerm.Terminal.start, sshTerm.Terminal.startCall,
      sshTerm.Terminal.startResult, onPointer, World.call]

/-- The calls of the start: the start call, and possibly one wait after it. -/
theorem start_world (env : Env) (s : sshTerm) (cmd : List String) (w : World) :
    ∃ calls : List Call,
      (sshTerm.Terminal.start env s cmd w).2 = ⟨w.termios, w.trace ++ calls⟩ ∧
      (calls = [sshTerm.Terminal.startCall s.session cmd] ∨
       calls = [sshTerm.Terminal.startCall s.session cmd, Call.Wait s.session]) := by
  obtain ⟨session, cl⟩ := s
  cases session with
  | none => exact ⟨_, by rw [start_nil], Or.inl rfl⟩
  | some sess =>
    cases h : sshTerm.Terminal.startResult env sess cmd with
    | some e => exact ⟨_, by rw [start_error env sess cl cmd w e h], Or.inl rfl⟩
    | none => exact ⟨_, by rw [start_ok env sess cl cmd w h], Or.inr rfl⟩

/-- The size query fails. -/
theorem negotiate_size_error (env : Env) (s : sshTerm) (cmd : List String) (fd : Int)
    (w : World) (e : GoError) (h : env.GetSize fd = .error e) :
    sshTerm.Terminal.negotiate env s cmd fd w =
      (Outcome.returned (some e), ⟨w.termios, w.trace ++ [Call.GetSize fd]⟩) := by
  simp [sshTerm.Terminal.negotiate, h, World.call]

/-- The pty request on a nil session panics. -/
theorem negotiate_nil (env : Env) (cl : Option Client) (cmd : List String) (fd : Int)
    (w : World) (W H : Int) (h : env.GetSize fd = .ok (W, H)) :
    sshTerm.Terminal.negotiate env ⟨none, cl⟩ cmd fd w =
      (Outcome.panicked nilDereference,
       ⟨w.termios, w.trace ++ [Call.GetSize fd,
          Call.RequestPty none "xterm-256color" (subInt H 1) W sshTerm.Terminal.modes]⟩) := by
  simp [sshTerm.Terminal.negotiate, h, World.call, onPointer]

/-- The pty request fails. -/
theorem negotiate_pty_error (env : Env) (sess : Session) (cl : Option Client)
    (cmd : List String) (fd : Int) (w : World) (W H : Int) (e : GoError)
    (h : env.GetSize fd = .ok (W, H))
    (hp : env.RequestPty sess "xterm-256color" (subInt H 1) W sshTerm.Terminal.modes
            = some e) :
    sshTerm.Terminal.negotiate env ⟨some sess, cl⟩ cmd fd w =
      (Outcome.returned (some e),
       ⟨w.termios, w.trace ++ [Call.GetSize fd,
          Call.RequestPty (some sess) "xterm-256color" (subInt H 1) W
            sshTerm.Terminal.modes]⟩) := by
  simp [sshTerm.Terminal.negotiate, h, hp, World.call, onPointer]

/-- The pty request succeeds: the start follows. -/
theorem negotiate_pty_ok (env : Env) (sess : Session) (cl : Option Client)
    (cmd : List String) (fd : Int) (w : World) (W H : Int)
    (h : env.GetSize fd = .ok (W, H))
    (hp : env.RequestPty sess "xterm-256color" (subInt H 1) W sshTerm.Terminal.modes
            = none) :
    sshTerm.Terminal.negotiate env ⟨some sess, cl⟩ cmd fd w =
      sshTerm.Terminal.start env ⟨some sess, cl⟩ cmd
        ⟨w.termios, w.trace ++ [Call.GetSize fd,
          Call.RequestPty (some sess) "xterm-256color" (subInt H 1) W
            sshTerm.Terminal.modes]⟩ := by
  simp [sshTerm.Terminal.negotiate, h, hp, World.call, onPointer]

/-- The calls made under the deferred restore: the size query alone when it
fails, and otherwise the size query, one pty request with the height reduced by
one, and then nothing, the start call, or the start call and a wait. -/
theorem negotiate_world (env : Env) (s : sshTerm) (cmd : List String) (fd : Int)
    (w : World) :
    ∃ calls : List Call,
      (sshTerm.Terminal.negotiate env s cmd fd w).2 = ⟨w.termios, w.trace ++ calls⟩ ∧
      ((calls = [Call.GetSize fd] ∧ ∃ e, env.GetSize fd = .error e) ∨
       ∃ (W H : Int) (tail : List Call),
         env.GetSize fd = .ok (W, H) ∧
         calls = [Call.GetSize fd,
           Call.RequestPty s.session "xterm-256color" (subInt H 1) W
             sshTerm.Terminal.modes] ++ tail ∧
         (tail = [] ∨ tail = [sshTerm.Terminal.startCall s.session cmd] ∨
          tail = [sshTerm.Terminal.startCall s.session cmd, Call.Wait s.session])) := by
  obtain ⟨session, cl⟩ := s
  cases h : env.GetSize fd with
  | error e =>
    exact ⟨_, by rw [negotiate_size_error env _ cmd fd w e h], Or.inl ⟨rfl, e, rfl⟩⟩
  | ok size =>
    obtain ⟨W, H⟩ := size
    cases session with
    | none =>
      exact ⟨_, by rw [negotiate_nil env cl cmd fd w W H h],
        Or.inr ⟨W, H, [], rfl, by simp, Or.inl rfl⟩⟩
    | some sess =>
      cases hp : env.RequestPty sess "xterm-256color" (subInt H 1) W
          sshTerm.Terminal.modes with
      | some e =>
        exact ⟨_, by rw [negotiate_pty_error env sess cl cmd fd w W H e h hp],
          Or.inr ⟨W, H, [], rfl, by simp, Or.inl rfl⟩⟩
      | none =>
        obtain ⟨tail, ht, hor⟩ := start_world env ⟨some sess, cl⟩ cmd
          ⟨w.termios, w.trace ++ [Call.GetSize fd,
            Call.RequestPty (some sess) "xterm-256color" (subInt H 1) W
              sshTerm.Terminal.modes]⟩
        refine ⟨[Call.GetSize fd,
            Call.RequestPty (some sess) "xterm-256color" (subInt H 1) W
              sshTerm.Terminal.modes] ++ tail, ?_, Or.inr ⟨W, H, tail, rfl, rfl, Or.inr hor⟩⟩
        rw [negotiate_pty_ok env sess cl cmd fd w W H h hp, ht]
        simp [List.append_assoc]

/-- Standard input is not a terminal: `Terminal` is the start alone. -/
theorem Terminal_piped (env : Env) (s : sshTerm) (cmd : List String) (w : World)
    (h : env.IsTerminal env.stdinFd = false) :
    sshTerm.Terminal env s cmd w =
      sshTerm.Terminal.start env s cmd
        ⟨w.termios, w.trace ++ [Call.IsTerminal env.stdinFd]⟩ := by
  simp [sshTerm.Terminal, h, World.call]

/-- Raw mode cannot be entered: the error is returned, the attributes stay. -/
theorem Terminal_makeRaw_error (env : Env) (s : sshTerm) (cmd : List String) (w : World)
    (e : GoError) (h : env.IsTerminal env.stdinFd = true)
    (hm : env.MakeRaw env.stdinFd w.termios = .error e) :
    sshTerm.Terminal env s cmd w =
      (Outcome.returned (some e),
       ⟨w.termios, w.trace ++ [Call.IsTerminal env.stdinFd, Call.MakeRaw env.stdinFd]⟩) := by
  simp [sshTerm.Terminal, h, hm, World.call]

/-- Raw mode is entered: the rest runs in raw mode under the deferred restore
of the attributes that were current when `Terminal` was called. -/
theorem Terminal_raw (env : Env) (s : sshTerm) (cmd : List String) (w : World)
    (raw : Termios) (h : env.IsTerminal env.stdinFd = true)
    (hm : env.MakeRaw env.stdinFd w.termios = .ok raw) :
    sshTerm.Terminal env s cmd w =
      withDefer (Restore env.stdinFd ⟨w.termios⟩)
        (sshTerm.Terminal.negotiate env s cmd env.stdinFd)
        ⟨raw, w.trace ++ [Call.IsTerminal env.stdinFd, Call.MakeRaw env.stdinFd]⟩ := by
  simp [sshTerm.Terminal, h, hm, World.call]

/-- The start call is a start. -/
@[simp] theorem startCall_isStart (s : Option Session) (cmd : List String) :
    (sshTerm.Terminal.startCall s cmd).isStart = true := by
  cases cmd <;> rfl

/-- The start call belongs to the start stage. -/
@[simp] theorem startCall_stage (s : Option Session) (cmd : List String) :
    (sshTerm.Terminal.startCall s cmd).stage = some Stage.start := by
  cases cmd <;> rfl

/-- The start call is no pty request. -/
@[simp] theorem startCall_isRequestPty (s : Option Session) (cmd : List String) :
    (sshTerm.Terminal.startCall s cmd).isRequestPty = false := by
  cases cmd <;> rfl

/-- The start call is no wait. -/
@[simp] theorem startCall_isWait (s : Option Session) (cmd : List String) :
    (sshTerm.Terminal.startCall s cmd).isWait = false := by
  cases cmd <;> rfl

/-- The start call is no restore. -/
@[simp] theorem startCall_isRestore (s : Option Session) (cmd : List String) :
    (sshTerm.Terminal.startCall s cmd).isRestore = false := by
  cases cmd <;> rfl

/-- The start call does not touch the local terminal. -/
@[simp] theorem startCall_touchesTerminal (s : Option Session) (cmd : List String) :
    (sshTerm.Terminal.startCall s cmd).touchesTerminal = false := by
  cases cmd <;> rfl

/-- Go subtraction of one is the mathematical one on every `int` but the
smallest. -/
theorem subInt_one (H : Int) (hlo : -(2 : Int) ^ 63 < H) (hhi : H < (2 : Int) ^ 63) :
    subInt H 1 = H - 1 := by
  unfold subInt wrapInt
  omega

/-- On a session that is not nil, `Terminal` returns the error of the first
failing stage, or nil; its calls go no further than the failing stage; and when
no stage fails there is exactly one wait. -/
theorem Terminal_on_session (env : Env) (sess : Session) (cl : Option Client)
    (cmd : List String) (w : World) :
    ∃ calls : List Call,
      sshTerm.Terminal env ⟨some sess, cl⟩ cmd w =
        (Outcome.returned
          ((sshTerm.Terminal.firstFailure env sess cmd w.termios).map Prod.snd),
         ⟨w.termios, w.trace ++ calls⟩) ∧
      (∀ (stage : Stage) (e : GoError),
        sshTerm.Terminal.firstFailure env sess cmd w.termios = some (stage, e) →
        ∀ c ∈ calls, ∀ later : Stage, c.stage = some later →
          later.index ≤ stage.index) ∧
      (sshTerm.Terminal.firstFailure env sess cmd w.termios = none →
        calls.filter Call.isWait = [Call.Wait (some sess)]) := by
  cases ht : env.IsTerminal env.stdinFd with
  | false =>
    rw [Terminal_piped env _ cmd w ht]
    cases hs : sshTerm.Terminal.startResult env sess cmd with
    | some e =>
      have hff : sshTerm.Terminal.firstFailure env sess cmd w.termios
          = some (Stage.start, e) := by
        simp [sshTerm.Terminal.firstFailure, ht, hs]
      rw [start_error env sess cl cmd _ e hs, hff]
      refine ⟨[Call.IsTerminal env.stdinFd, sshTerm.Terminal.startCall (some sess) cmd],
        by simp, ?_, by simp⟩
      intro stage e' h c hc later hl
      simp only [Option.some.injEq, Prod.mk.injEq] at h
      obtain ⟨rfl, rfl⟩ := h
      simp only [List.mem_cons, List.mem_singleton, List.not_mem_nil, or_false] at hc
      rcases hc with rfl | rfl <;> cases cmd <;> cases later <;>
        simp_all [Call.stage, Stage.index, sshTerm.Terminal.startCall]
    | none =>
      have hff : sshTerm.Terminal.firstFailure env sess cmd w.termios = none := by
        simp [sshTerm.Terminal.firstFailure, ht, hs]
      rw [start_ok env sess cl cmd _ hs, hff]
      refine ⟨[Call.IsTerminal env.stdinFd, sshTerm.Terminal.startCall (some sess) cmd,
        Call.Wait (some sess)], by simp, by simp, ?_⟩
      intro _
      cases cmd <;> simp [List.filter, Call.isWait, sshTerm.Terminal.startCall]
  | true =>
    cases hm : env.MakeRaw env.stdinFd w.termios with
    | error e =>
      have hff : sshTerm.Terminal.firstFailure env sess cmd w.termios
          = some (Stage.makeRaw, e) := by
        simp [sshTerm.Terminal.firstFailure, ht, hm]
      rw [Terminal_makeRaw_error env _ cmd w e ht hm, hff]
      refine ⟨[Call.IsTerminal env.stdinFd, Call.MakeRaw env.stdinFd], by simp, ?_,
        by simp⟩
      intro stage e' h c hc later hl
      simp only [Option.some.injEq, Prod.mk.injEq] at h
      obtain ⟨rfl, rfl⟩ := h
      simp only [List.mem_cons, List.mem_singleton, List.not_mem_nil, or_false] at hc
      rcases hc with rfl | rfl <;> cases cmd <;> cases later <;>
        simp_all [Call.stage, Stage.index, sshTerm.Terminal.startCall]
    | ok raw =>
      rw [Terminal_raw env _ cmd w raw ht hm]
      unfold withDefer
      cases hg : env.GetSize env.stdinFd with
      | error e =>
        have hff : sshTerm.Terminal.firstFailure env sess cmd w.termios
            = some (Stage.getSize, e) := by
          simp [sshTerm.Terminal.firstFailure, ht, hm, hg]
        rw [negotiate_size_error env _ cmd _ _ e hg, hff]
        refine ⟨[Call.IsTerminal env.stdinFd, Call.MakeRaw env.stdinFd,
          Call.GetSize env.stdinFd, Call.Restore env.stdinFd ⟨w.termios⟩],
          by simp [Restore, World.call], ?_, by simp⟩
        intro stage e' h c hc later hl
        simp only [Option.some.injEq, Prod.mk.injEq] at h
        obtain ⟨rfl, rfl⟩ := h
        simp only [List.mem_cons, List.mem_singleton, List.not_mem_nil, or_false] at hc
        rcases hc with rfl | rfl | rfl | rfl <;> cases cmd <;> cases later <;>
          simp_all [Call.stage, Stage.index, sshTerm.Terminal.startCall]
      | ok size =>
        obtain ⟨W, H⟩ := size
        cases hp : env.RequestPty sess "xterm-256color" (subInt H 1) W
            sshTerm.Terminal.modes with
        | some e =>
          have hff : sshTerm.Terminal.firstFailure env sess cmd w.termios
              = some (Stage.requestPty, e) := by
            simp [sshTerm.Terminal.firstFailure, ht, hm, hg, hp]
          rw [negotiate_pty_error env sess cl cmd _ _ W H e hg hp, hff]
          refine ⟨[Call.IsTerminal env.stdinFd, Call.MakeRaw env.stdinFd,
            Call.GetSize env.stdinFd,
            Call.RequestPty (some sess) "xterm-256color" (subInt H 1) W
              sshTerm.Terminal.modes,
            Call.Restore env.stdinFd ⟨w.termios⟩],
            by simp [Restore, World.call], ?_, by simp⟩
          intro stage e' h c hc later hl
          simp only [Option.some.injEq, Prod.mk.injEq] at h
          obtain ⟨rfl, rfl⟩ := h
          simp only [List.mem_cons, List.mem_singleton, List.not_mem_nil, or_false] at hc
          rcases hc with rfl | rfl | rfl | rfl | rfl <;> cases cmd <;> cases later <;>
            simp_all [Call.stage, Stage.index, sshTerm.Terminal.startCall]
        | none =>
          rw [negotiate_pty_ok env sess cl cmd _ _ W H hg hp]
          cases hs : sshTerm.Terminal.startResult env sess cmd with
          | some e =>
            have hff : sshTerm.Terminal.firstFailure env sess cmd w.termios
                = some (Stage.start, e) := by
              simp [sshTerm.Terminal.firstFailure, ht, hm, hg, hp, hs]
            rw [start_error env sess cl cmd _ e hs, hff]
            refine ⟨[Call.IsTerminal env.stdinFd, Call.MakeRaw env.stdinFd,
              Call.GetSize env.stdinFd,
              Call.RequestPty (some sess) "xterm-256color" (subInt H 1) W
                sshTerm.Terminal.modes,
              sshTerm.Terminal.startCall (some sess) cmd,
              Call.Restore env.stdinFd ⟨w.termios⟩],
              by simp [Restore, World.call], ?_, by simp⟩
            intro stage e' h c hc later hl
            simp only [Option.some.injEq, Prod.mk.injEq] at h
            obtain ⟨rfl, rfl⟩ := h
            simp only [List.mem_cons, List.mem_singleton, List.not_mem_nil, or_false] at hc
            rcases hc with rfl | rfl | rfl | rfl | rfl | rfl <;> cases cmd <;> cases later <;>
              simp_all [Call.stage, Stage.index, sshTerm.Terminal.startCall]
          | none =>
            have hff : sshTerm.Terminal.firstFailure env sess cmd w.termios = none := by
              simp [sshTerm.Terminal.firstFailure, ht, hm, hg, hp, hs]
            rw [start_ok env sess cl cmd _ hs, hff]
            refine ⟨[Call.IsTerminal env.stdinFd, Call.MakeRaw env.stdinFd,
              Call.GetSize env.stdinFd,
              Call.RequestPty (some sess) "xterm-256color" (subInt H 1) W
                sshTerm.Terminal.modes,
              sshTerm.Terminal.startCall (some sess) cmd, Call.Wait (some sess),
              Call.Restore env.stdinFd ⟨w.termios⟩],
              by simp [Restore, World.call], by simp, ?_⟩
            intro _
            cases cmd <;> simp [List.filter, Call.isWait, sshTerm.Terminal.startCall]

/-! ## Claims about `Terminal` and `Exec` -/

/-- C2.  For every handle (a nil session included), argument list and world:
when standard input is a terminal and raw mode was entered, the last call of
`Terminal` is `Restore` on the descriptor of standard input with exactly the
state that `MakeRaw` captured, which is the attributes at the time of the call;
it is the only `Restore` and no second `MakeRaw` precedes it; and the
attributes after `Terminal` equal the attributes before it, whichever way the
call ends.  When standard input is not a terminal, the attributes are the same
after the call and no call reads or writes the terminal
(`term.Restore` is taken by its contract: it writes the saved attributes). -/
theorem Terminal_restores_terminal (env : Env) (s : sshTerm) (cmd : List String)
    (w : World) :
    (∀ raw : Termios, env.IsTerminal env.stdinFd = true →
      env.MakeRaw env.stdinFd w.termios = .ok raw →
      (sshTerm.Terminal env s cmd w).2.termios = w.termios ∧
      ∃ calls : List Call,
        (sshTerm.Terminal env s cmd w).2.trace =
          w.trace ++ [Call.IsTerminal env.stdinFd, Call.MakeRaw env.stdinFd] ++ calls ++
            [Call.Restore env.stdinFd ⟨w.termios⟩] ∧
        ∀ c ∈ calls, c.isRestore = false ∧ c.stage ≠ some Stage.makeRaw) ∧
    (env.IsTerminal env.stdinFd = false →
      (sshTerm.Terminal env s cmd w).2.termios = w.termios ∧
      ∃ calls : List Call,
        (sshTerm.Terminal env s cmd w).2.trace = w.trace ++ calls ∧
        ∀ c ∈ calls, c.touchesTerminal = false) := by
  constructor
  · intro raw ht hm
    rw [Terminal_raw env s cmd w raw ht hm]
    obtain ⟨calls, hw, hor⟩ := negotiate_world env s cmd env.stdinFd
      ⟨raw, w.trace ++ [Call.IsTerminal env.stdinFd, Call.MakeRaw env.stdinFd]⟩
    refine ⟨by simp [withDefer, Restore], calls, by simp [withDefer, Restore, World.call, hw],
      ?_⟩
    intro c hc
    rcases hor with ⟨rfl, -⟩ | ⟨W, H, tail, -, rfl, rfl | rfl | rfl⟩ <;>
      simp only [List.mem_cons, List.mem_singleton, List.not_mem_nil, or_false,
        List.append_nil, List.cons_append, List.nil_append] at hc
    · subst hc; simp [Call.isRestore, Call.stage]
    · rcases hc with rfl | rfl <;> cases cmd <;>
        simp [Call.isRestore, Call.stage, sshTerm.Terminal.startCall]
    · rcases hc with rfl | rfl | rfl <;> cases cmd <;>
        simp [Call.isRestore, Call.stage, sshTerm.Terminal.startCall]
    · rcases hc with rfl | rfl | rfl | rfl <;> cases cmd <;>
        simp [Call.isRestore, Call.stage, sshTerm.Terminal.startCall]
  · intro ht
    rw [Terminal_piped env s cmd w ht]
    obtain ⟨calls, hw, hor⟩ := start_world env s cmd
      ⟨w.termios, w.trace ++ [Call.IsTerminal env.stdinFd]⟩
    refine ⟨by rw [hw], Call.IsTerminal env.stdinFd :: calls, by rw [hw]; simp, ?_⟩
    intro c hc
    rcases hor with rfl | rfl <;>
      simp only [List.mem_cons, List.mem_singleton, List.not_mem_nil, or_false] at hc
    · rcases hc with rfl | rfl <;> cases cmd <;>
        simp [Call.touchesTerminal, sshTerm.Terminal.startCall]
    · rcases hc with rfl | rfl | rfl <;> cases cmd <;>
        simp [Call.touchesTerminal, sshTerm.Terminal.startCall]

/-- Witness of C2: an interactive shell on a terminal (raw mode is entered, the
attributes change from 0 to 1 and are 0 again at the end), a run in which the
pty request fails, and a run with standard input redirected. -/
theorem Terminal_restores_terminal_witness :
    sampleEnv.MakeRaw sampleEnv.stdinFd sampleWorld.termios = .ok ⟨1⟩ ∧
    ((sshTerm.Terminal sampleEnv sampleHandle [] sampleWorld).2.termios
        = sampleWorld.termios ∧
      ∃ calls : List Call,
        (sshTerm.Terminal sampleEnv sampleHandle [] sampleWorld).2.trace =
          sampleWorld.trace ++
            [Call.IsTerminal sampleEnv.stdinFd, Call.MakeRaw sampleEnv.stdinFd] ++ calls ++
            [Call.Restore sampleEnv.stdinFd ⟨sampleWorld.termios⟩] ∧
        ∀ c ∈ calls, c.isRestore = false ∧ c.stage ≠ some Stage.makeRaw) ∧
    (sshTerm.Terminal noPtyEnv sampleHandle [] sampleWorld).2 =
      ⟨⟨0⟩, [Call.IsTerminal 0, Call.MakeRaw 0, Call.GetSize 0,
        Call.RequestPty (some sampleSession) "xterm-256color" 23 80
          sshTerm.Terminal.modes,
        Call.Restore 0 ⟨⟨0⟩⟩]⟩ ∧
    ((sshTerm.Terminal pipedEnv sampleHandle [] sampleWorld).2.termios
        = sampleWorld.termios ∧
      ∃ calls : List Call,
        (sshTerm.Terminal pipedEnv sampleHandle [] sampleWorld).2.trace =
          sampleWorld.trace ++ calls ∧
        ∀ c ∈ calls, c.touchesTerminal = false) :=
  ⟨rfl,
   (Terminal_restores_terminal sampleEnv sampleHandle [] sampleWorld).1 ⟨1⟩ rfl rfl,
   by decide,
   (Terminal_restores_terminal pipedEnv sampleHandle [] sampleWorld).2 rfl⟩

/-- C3.  When standard input is a terminal, raw mode is entered and the size
query reports width `W` and height `H`, the calls of `Terminal` contain exactly
one pty request, on the session of the handle, with terminal type
"xterm-256color", rows the Go difference `H - 1`, columns `W` and the modes
ECHO = 1, TTY_OP_ISPEED = 14400, TTY_OP_OSPEED = 14400.  The Go difference is
the integer `H - 1` for every `int` above the smallest, with no clamping: it is
-1 for `H = 0`. -/
theorem Terminal_pty_request (env : Env) (s : sshTerm) (cmd : List String) (w : World)
    (raw : Termios) (W H : Int)
    (ht : env.IsTerminal env.stdinFd = true)
    (hm : env.MakeRaw env.stdinFd w.termios = .ok raw)
    (hg : env.GetSize env.stdinFd = .ok (W, H)) :
    ∃ calls : List Call,
      (sshTerm.Terminal env s cmd w).2.trace = w.trace ++ calls ∧
      calls.filter Call.isRequestPty =
        [Call.RequestPty s.session "xterm-256color" (subInt H 1) W
          [(ECHO, 1), (TTY_OP_ISPEED, 14400), (TTY_OP_OSPEED, 14400)]] ∧
      (-(2 : Int) ^ 63 < H → H < (2 : Int) ^ 63 → subInt H 1 = H - 1) ∧
      (H = 0 → subInt H 1 = -1) := by
  rw [Terminal_raw env s cmd w raw ht hm]
  obtain ⟨calls, hw, hor⟩ := negotiate_world env s cmd env.stdinFd
    ⟨raw, w.trace ++ [Call.IsTerminal env.stdinFd, Call.MakeRaw env.stdinFd]⟩
  refine ⟨[Call.IsTerminal env.stdinFd, Call.MakeRaw env.stdinFd] ++ calls ++
      [Call.Restore env.stdinFd ⟨w.termios⟩],
    by simp [withDefer, Restore, World.call, hw], ?_, subInt_one H, ?_⟩
  · rcases hor with ⟨-, e, he⟩ | ⟨W', H', tail, hg', rfl, htail⟩
    · rw [hg] at he; cases he
    · rw [hg] at hg'
      simp only [Except.ok.injEq, Prod.mk.injEq] at hg'
      obtain ⟨rfl, rfl⟩ := hg'
      rcases htail with rfl | rfl | rfl <;> cases cmd <;>
        simp [List.filter, Call.isRequestPty, sshTerm.Terminal.modes,
          sshTerm.Terminal.startCall]
  · rintro rfl; decide

/-- Witness of C3: a terminal of 80 columns and 24 rows gives one pty request
with 23 rows and 80 columns. -/
theorem Terminal_pty_request_witness :
    sampleEnv.IsTerminal sampleEnv.stdinFd = true ∧
    sampleEnv.MakeRaw sampleEnv.stdinFd sampleWorld.termios = .ok ⟨1⟩ ∧
    sampleEnv.GetSize sampleEnv.stdinFd = .ok (80, 24) ∧
    (∃ calls : List Call,
      (sshTerm.Terminal sampleEnv sampleHandle [] sampleWorld).2.trace =
        sampleWorld.trace ++ calls ∧
      calls.filter Call.isRequestPty =
        [Call.RequestPty sampleHandle.session "xterm-256color" (subInt 24 1) 80
          [(ECHO, 1), (TTY_OP_ISPEED, 14400), (TTY_OP_OSPEED, 14400)]] ∧
      (-(2 : Int) ^ 63 < 24 → (24 : Int) < (2 : Int) ^ 63 → subInt 24 1 = 24 - 1) ∧
      ((24 : Int) = 0 → subInt 24 1 = -1)) ∧
    (sshTerm.Terminal sampleEnv sampleHandle [] sampleWorld).2.trace.filter
        Call.isRequestPty =
      [Call.RequestPty (some sampleSession) "xterm-256color" 23 80
        [(53, 1), (128, 14400), (129, 14400)]] :=
  ⟨rfl, rfl, rfl,
   Terminal_pty_request sampleEnv sampleHandle [] sampleWorld ⟨1⟩ 80 24 rfl rfl rfl,
   by decide⟩

/-- C4.  On a handle with a session, `Terminal` returns: the error of the
first stage, in the order raw-mode entry, size query, pty request, start, whose
library call answers with an error, that value itself; and then no call of a
later stage is made, so no start after an earlier failure and no wait after any
failure.  When no stage fails it returns nil after exactly one wait, whatever
the wait answers (the answer of the wait does not enter the first failure). -/
theorem Terminal_returns_first_error (env : Env) (sess : Session) (cl : Option Client)
    (cmd : List String) (w : World) :
    ∃ calls : List Call,
      (sshTerm.Terminal env ⟨some sess, cl⟩ cmd w).2.trace = w.trace ++ calls ∧
      (∀ (stage : Stage) (e : GoError),
        sshTerm.Terminal.firstFailure env sess cmd w.termios = some (stage, e) →
        (sshTerm.Terminal env ⟨some sess, cl⟩ cmd w).1 = Outcome.returned (some e) ∧
        (∀ c ∈ calls, ∀ later : Stage, c.stage = some later →
          later.index ≤ stage.index) ∧
        calls.filter Call.isWait = []) ∧
      (sshTerm.Terminal.firstFailure env sess cmd w.termios = none →
        (sshTerm.Terminal env ⟨some sess, cl⟩ cmd w).1 = Outcome.returned none ∧
        calls.filter Call.isWait = [Call.Wait (some sess)]) := by
  obtain ⟨calls, hr, hfail, hok⟩ := Terminal_on_session env sess cl cmd w
  refine ⟨calls, by rw [hr], ?_, ?_⟩
  · intro stage e h
    refine ⟨by rw [hr, h]; rfl, hfail stage e h, ?_⟩
    rw [List.filter_eq_nil_iff]
    intro c hc hwait
    cases c <;> simp [Call.isWait] at hwait
    have hle := hfail stage e h _ hc Stage.wait rfl
    have hne : stage ≠ Stage.wait := by
      rintro rfl
      have hmem : ∀ (o : Option GoError),
          o.map (fun e => (Stage.start, e)) ≠ some (Stage.wait, e) := by
        intro o; cases o <;> simp
      unfold sshTerm.Terminal.firstFailure at h
      simp only at h
      split at h
      · split at h
        · simp at h
        · split at h
          · simp at h
          · split at h
            · simp at h
            · exact hmem _ h
      · exact hmem _ h
    cases stage <;> simp_all [Stage.index]
  · intro h
    exact ⟨by rw [hr, h]; rfl, hok h⟩

/-- Witness of C4: the pty request fails and its error comes back, with no
start and no wait; and a shell whose wait answers with an exit status error
makes `Terminal` return nil. -/
theorem Terminal_returns_first_error_witness :
    (sshTerm.Terminal.firstFailure noPtyEnv sampleSession [] sampleWorld.termios =
      some (Stage.requestPty, GoError.ext 7 "ssh: pty-req failed")) ∧
    (sshTerm.Terminal noPtyEnv sampleHandle [] sampleWorld).1 =
      Outcome.returned (some (GoError.ext 7 "ssh: pty-req failed")) ∧
    (sshTerm.Terminal.firstFailure exitOneEnv sampleSession [] sampleWorld.termios = none) ∧
    exitOneEnv.Wait sampleSession = some (GoError.ext 9 "Process exited with status 1") ∧
    (sshTerm.Terminal exitOneEnv sampleHandle [] sampleWorld).1 = Outcome.returned none ∧
    (∃ calls : List Call,
      (sshTerm.Terminal noPtyEnv ⟨some sampleSession, some ⟨1⟩⟩ [] sampleWorld).2.trace =
        sampleWorld.trace ++ calls ∧
      (∀ (stage : Stage) (e : GoError),
        sshTerm.Terminal.firstFailure noPtyEnv sampleSession [] sampleWorld.termios
          = some (stage, e) →
        (sshTerm.Terminal noPtyEnv ⟨some sampleSession, some ⟨1⟩⟩ [] sampleWorld).1
          = Outcome.returned (some e) ∧
        (∀ c ∈ calls, ∀ later : Stage, c.stage = some later →
          later.index ≤ stage.index) ∧
        calls.filter Call.isWait = []) ∧
      (sshTerm.Terminal.firstFailure noPtyEnv sampleSession [] sampleWorld.termios = none →
        (sshTerm.Terminal noPtyEnv ⟨some sampleSession, some ⟨1⟩⟩ [] sampleWorld).1
          = Outcome.returned none ∧
        calls.filter Call.isWait = [Call.Wait (some sampleSession)])) :=
  ⟨by decide, by decide, by decide, rfl, by decide,
   Terminal_returns_first_error noPtyEnv sampleSession (some ⟨1⟩) [] sampleWorld⟩

/-- C5.  When standard input is not a terminal, for every handle and argument
list, `Terminal` makes no raw-mode entry, no size query and no pty request, and
its calls contain exactly one start operation on the session of the handle:
`Start` with the first argument when the list is not empty (the further
arguments are not used), `Shell` when it is empty. -/
theorem Terminal_without_terminal (env : Env) (s : sshTerm) (cmd : List String)
    (w : World) (h : env.IsTerminal env.stdinFd = false) :
    ∃ calls : List Call,
      (sshTerm.Terminal env s cmd w).2.trace = w.trace ++ calls ∧
      (∀ c ∈ calls, c.stage ≠ some Stage.makeRaw ∧ c.stage ≠ some Stage.getSize ∧
        c.stage ≠ some Stage.requestPty) ∧
      (∀ (c : String) (rest : List String), cmd = c :: rest →
        calls.filter Call.isStart = [Call.Start s.session c]) ∧
      (cmd = [] → calls.filter Call.isStart = [Call.Shell s.session]) := by
  rw [Terminal_piped env s cmd w h]
  obtain ⟨calls, hw, hor⟩ := start_world env s cmd
    ⟨w.termios, w.trace ++ [Call.IsTerminal env.stdinFd]⟩
  refine ⟨Call.IsTerminal env.stdinFd :: calls, by rw [hw]; simp, ?_, ?_, ?_⟩
  · intro c hc
    rcases hor with rfl | rfl <;>
      simp only [List.mem_cons, List.mem_singleton, List.not_mem_nil, or_false] at hc
    · rcases hc with rfl | rfl <;> cases cmd <;>
        simp [Call.stage, sshTerm.Terminal.startCall]
    · rcases hc with rfl | rfl | rfl <;> cases cmd <;>
        simp [Call.stage, sshTerm.Terminal.startCall]
  · rintro c rest rfl
    rcases hor with rfl | rfl <;>
      simp [List.filter, Call.isStart, sshTerm.Terminal.startCall]
  · rintro rfl
    rcases hor with rfl | rfl <;>
      simp [List.filter, Call.isStart, sshTerm.Terminal.startCall]

/-- Witness of C5: standard input is redirected and two arguments are given;
the calls are the terminal test, `Start` of the first argument, and the wait. -/
theorem Terminal_without_terminal_witness :
    pipedEnv.IsTerminal pipedEnv.stdinFd = false ∧
    (∃ calls : List Call,
      (sshTerm.Terminal pipedEnv sampleHandle ["uname", "-a"] sampleWorld).2.trace =
        sampleWorld.trace ++ calls ∧
      (∀ c ∈ calls, c.stage ≠ some Stage.makeRaw ∧ c.stage ≠ some Stage.getSize ∧
        c.stage ≠ some Stage.requestPty) ∧
      (∀ (c : String) (rest : List String), ["uname", "-a"] = c :: rest →
        calls.filter Call.isStart = [Call.Start sampleHandle.session c]) ∧
      (["uname", "-a"] = [] → calls.filter Call.isStart = [Call.Shell sampleHandle.session])) ∧
    (sshTerm.Terminal pipedEnv sampleHandle ["uname", "-a"] sampleWorld).2.trace =
      [Call.IsTerminal 0, Call.Start (some sampleSession) "uname",
       Call.Wait (some sampleSession)] ∧
    (sshTerm.Terminal pipedEnv sampleHandle [] sampleWorld).2.trace =
      [Call.IsTerminal 0, Call.Shell (some sampleSession), Call.Wait (some sampleSession)] :=
  ⟨rfl,
   Terminal_without_terminal pipedEnv sampleHandle ["uname", "-a"] sampleWorld rfl,
   by decide, by decide⟩

/-- C6, as amended.  An error `e` of the pty request, and an error `e` of
`Start` or `Shell`, when it is the first failure of `Terminal` on a handle with
a session, is returned as it is: the value returned is `e`.  An error `e` of
the session creation in `NewSSHTerm` is not: the error returned is a new one,
whose message is "unable to create session: " and a line feed followed by the
message of `e`. -/
theorem session_errors_returned (env : Env) (config : Config) (sess : Session)
    (cl : Option Client) (cmd : List String) (w : World) (e : GoError) :
    (firstFailure env config = some (Step.session, e) →
      (NewSSHTerm env config w).1.2 =
        some (errors.New ("unable to create session: \n" ++ e.Error)) ∧
      (NewSSHTerm env config w).1.2.map GoError.Error =
        some ("unable to create session: \n" ++ e.Error)) ∧
    (sshTerm.Terminal.firstFailure env sess cmd w.termios = some (Stage.requestPty, e) →
      (sshTerm.Terminal env ⟨some sess, cl⟩ cmd w).1 = Outcome.returned (some e)) ∧
    (sshTerm.Terminal.firstFailure env sess cmd w.termios = some (Stage.start, e) →
      (sshTerm.Terminal env ⟨some sess, cl⟩ cmd w).1 = Outcome.returned (some e)) := by
  refine ⟨?_, ?_, ?_⟩
  · intro h
    obtain ⟨calls, client, hr, -, -⟩ := NewSSHTerm_failure env config w _ e h
    rw [hr]
    exact ⟨rfl, rfl⟩
  · intro h
    obtain ⟨calls, hr, -, -⟩ := Terminal_on_session env sess cl cmd w
    rw [hr, h]; rfl
  · intro h
    obtain ⟨calls, hr, -, -⟩ := Terminal_on_session env sess cl cmd w
    rw [hr, h]; rfl

/-- Witness of C6 as amended: a session that does not open, a pty request
that is refused, and a shell that does not start. -/
theorem session_errors_returned_witness :
    (NewSSHTerm noSessionEnv sampleConfig sampleWorld).1.2 =
      some (errors.New ("unable to create session: \n" ++
        (GoError.ext 5 "open failed").Error)) ∧
    (sshTerm.Terminal noPtyEnv ⟨some sampleSession, some ⟨1⟩⟩ [] sampleWorld).1 =
      Outcome.returned (some (GoError.ext 7 "ssh: pty-req failed")) ∧
    (sshTerm.Terminal noStartEnv ⟨some sampleSession, some ⟨1⟩⟩ [] sampleWorld).1 =
      Outcome.returned (some (GoError.ext 8 "ssh: could not start shell")) :=
  ⟨((session_errors_returned noSessionEnv sampleConfig sampleSession (some ⟨1⟩) []
      sampleWorld (GoError.ext 5 "open failed")).1 (by decide)).1,
   (session_errors_returned noPtyEnv sampleConfig sampleSession (some ⟨1⟩) []
      sampleWorld (GoError.ext 7 "ssh: pty-req failed")).2.1 (by decide),
   (session_errors_returned noStartEnv sampleConfig sampleSession (some ⟨1⟩) []
      sampleWorld (GoError.ext 8 "ssh: could not start shell")).2.2 (by decide)⟩

/-- C9.  On a handle with a session, `Exec cmd` makes exactly one call, `Run`
of `cmd` on that session, and returns what `Run` answers, unchanged: it is nil
exactly when the answer of `Run` is nil, and every error of `Run` comes back as
that error.  No pty request is among the calls and the attributes of the local
terminal are the same after the call. -/
theorem Exec_runs_once (env : Env) (sess : Session) (cl : Option Client) (cmd : String)
    (w : World) :
    sshTerm.Exec env ⟨some sess, cl⟩ cmd w =
      (Outcome.returned (env.Run sess cmd),
       ⟨w.termios, w.trace ++ [Call.Run (some sess) cmd]⟩) ∧
    ((sshTerm.Exec env ⟨some sess, cl⟩ cmd w).1 = Outcome.returned none ↔
      env.Run sess cmd = none) ∧
    (∀ e : GoError, env.Run sess cmd = some e →
      (sshTerm.Exec env ⟨some sess, cl⟩ cmd w).1 = Outcome.returned (some e)) ∧
    (∀ c ∈ [Call.Run (some sess) cmd],
      c.isRequestPty = false ∧ c.touchesTerminal = false) ∧
    (sshTerm.Exec env ⟨some sess, cl⟩ cmd w).2.termios = w.termios := by
  refine ⟨by simp [sshTerm.Exec, onPointer, World.call],
    by simp [sshTerm.Exec, onPointer], ?_, ?_,
    by simp [sshTerm.Exec, World.call]⟩
  · intro e he
    simp [sshTerm.Exec, onPointer, he]
  · intro c hc
    simp only [List.mem_singleton] at hc
    subst hc
    exact ⟨rfl, rfl⟩

/-- Witness of C9: a remote command that ends with status 1; the error of
`Run` is what `Exec` returns, after the single call `Run`. -/
theorem Exec_runs_once_witness :
    exitOneEnv.Run sampleSession "false" =
      some (GoError.ext 9 "Process exited with status 1") ∧
    (sshTerm.Exec exitOneEnv sampleHandle "false" sampleWorld).1 =
      Outcome.returned (some (GoError.ext 9 "Process exited with status 1")) ∧
    (sshTerm.Exec sampleEnv sampleHandle "true" sampleWorld) =
      (Outcome.returned none, ⟨⟨0⟩, [Call.Run (some sampleSession) "true"]⟩) :=
  ⟨rfl,
   (Exec_runs_once exitOneEnv sampleSession (some ⟨1⟩) "false" sampleWorld).2.2.1
     (GoError.ext 9 "Process exited with status 1") rfl,
   (Exec_runs_once sampleEnv sampleSession (some ⟨1⟩) "true" sampleWorld).1⟩

end sshterm
